import Mathlib

/-!
Verification of the vocabulary-matching game kernel in
`src/vocab/flask_vocab.py`.

The file `flask_vocab.py` is the only source file present; the helper
modules it imports (`src/letterbag.py`, `src/vocab.py`, `src/jumble.py`,
`src/config.py`) are part of the repository but are not available, so
their operations are modelled from the specification (section 4 of the
spec), and marked as such.  Everything else is translated directly from
`flask_vocab.py`.
-/

namespace VocabGame

/-- Modelled from the spec: `LetterBag.contains` from the missing
`src/letterbag.py`.  Spec 4.1: `contains(candidate)` returns true iff, for
every distinct character in `candidate`, the count of that character in
`candidate` does not exceed its count in the multiset of the bag string.
No normalization is performed here; absent characters yield a zero count. -/
def LetterBag.contains (bag : String) (candidate : String) : Bool :=
  candidate.toList.all
    (fun c => candidate.toList.count c ≤ bag.toList.count c)

/-- Modelled from the spec: `Vocab.has` from the missing `src/vocab.py`.
Spec 4.2: an exact membership test against the stored word list (the
stored words are lowercase; the query is not altered). -/
def Vocab.has (words : List String) (w : String) : Bool :=
  words.contains w

/-- Letter pool used by the jumble generator.
Modelled from the spec: part of `jumbled` from the missing
`src/jumble.py`.  Spec 4.3: the generator "selects (or uses all of) the
vocabulary, concatenates/derives a letter pool sufficient to plausibly
spell at least `target_count` words". -/
def letterPool (words : List String) (target : Nat) : List Char :=
  (words.take target).foldl (fun acc w => acc ++ w.toList) []

/-- Deterministic stream of pseudo-random numbers derived from a seed.
Modelled from the spec: spec 4.3 requires that a provided seed make the
permutation reproducible, i.e. a pure function of the seed. -/
def tapeFromSeed (s : Int) : List Nat :=
  [s.toNat % 7, (s.toNat * 3 + 1) % 11]

/-- Permutation of the letter pool driven by a stream of random numbers.
Modelled from the spec: spec 4.3, "produces a randomized permutation of
that letter pool as the output string". -/
def scramble (l : List Char) (tape : List Nat) : List Char :=
  tape.foldl (fun acc k => acc.rotate k) l

/-- Modelled from the spec: `jumbled` from the missing `src/jumble.py`.
Spec 4.3: with `seed = some s` the random source is derived from the
seed (reproducible); with `seed = none` the ambient non-deterministic
randomness — represented by the explicit `tape` argument, one fresh tape
per call — is used. -/
def jumbled (words : List String) (target : Nat)
    (seed : Option Int) (tape : List Nat) : String :=
  String.mk (scramble (letterPool words target)
    (match seed with
     | some s => tapeFromSeed s
     | none => tape))

/-- The configured seed as the `index` page passes it to `jumbled`.
From `flask_vocab.py` line 53:
`seed=None if not SEED or SEED < 0 else SEED`, where `SEED` is `None`
when the configured value was not an integer.  Python truthiness:
`not SEED` is true when `SEED` is `None` or `0`. -/
def effectiveSeed : Option Int → Option Int
  | none => none
  | some s => if s = 0 || s < 0 then none else some s

/-- Per-visitor session state: the three session variables set by
`index` and read by `check` in `flask_vocab.py`. -/
structure Session where
  jumble : String
  target_count : Nat
  matchList : List String
  deriving Repr, DecidableEq

/-- Outcome of the `check` handler, from the `flask.jsonify` result
values in `flask_vocab.py` lines 104-116: `{"status": "success"}`,
`{"status": "keep_going", "word": text}`, `{"status": "error",
"message": ...}`, and the `assert False` branch (an exception escaping
to the caller rather than a returned value). -/
inductive Outcome where
  | success
  | keepGoing (word : String)
  | error (message : String)
  | assertionFailure
  deriving Repr, DecidableEq

/-- The rejection message built at `flask_vocab.py` line 109:
`"You already found {}".format(text)`. -/
def alreadyFoundMsg (w : String) : String :=
  "You already found " ++ w

/-- The rejection message built at `flask_vocab.py` line 111:
`"{} isn't in the list of words".format(text)`. -/
def notInVocabMsg (w : String) : String :=
  w ++ " isn\x27t in the list of words"

/-- The rejection message built at `flask_vocab.py` line 113:
`'"{}" can\'t be made from the letters {}'.format(text, jumble)`. -/
def notInJumbleMsg (w : String) (jumble : String) : String :=
  "\x22" ++ w ++ "\x22 can\x27t be made from the letters " ++ jumble

/-- The `check` handler of `flask_vocab.py` (lines 86-116), as a state
transition: given the shared word list, the session and the submitted
text, it returns the updated session and the outcome.  The branch
structure and condition order follow the source:
`if matched and in_jumble and not (text in matches): ...` then
`elif text in matches`, `elif not matched`, `elif not in_jumble`,
`else: assert False`. -/
def check (words : List String) (s : Session) (text : String) :
    Session × Outcome :=
  let jumble := s.jumble
  let ms := s.matchList
  let in_jumble := LetterBag.contains jumble text
  let matched := Vocab.has words text
  if matched && in_jumble && !(ms.contains text) then
    let matches2 := ms ++ [text]
    let s2 : Session := { s with matchList := matches2 }
    if matches2.length ≥ s.target_count then
      (s2, Outcome.success)
    else
      (s2, Outcome.keepGoing text)
  else if ms.contains text then
    (s, Outcome.error (alreadyFoundMsg text))
  else if !matched then
    (s, Outcome.error (notInVocabMsg text))
  else if !in_jumble then
    (s, Outcome.error (notInJumbleMsg text jumble))
  else
    (s, Outcome.assertionFailure)

/-- The `index` handler of `flask_vocab.py` (lines 47-59), which starts
a new game: it sets `target_count = min(len(vocab), SUCCESS_AT_COUNT)`,
generates a fresh jumble and resets `matches` to the empty list.  The
prior session is taken as an argument (and overwritten) to state
properties about resets; `tape` is the ambient randomness consumed when
the effective seed is absent. -/
def startNewGame (words : List String) (successAtCount : Nat)
    (seed : Option Int) (tape : List Nat) (_prior : Session) : Session :=
  let target := min words.length successAtCount
  { jumble := jumbled words target (effectiveSeed seed) tape
    target_count := target
    matchList := [] }

/-- Whether an outcome is an accepting one (the first branch of the
decision table): used only to state frame conditions. -/
def Outcome.isAccept : Outcome → Bool
  | Outcome.success => true
  | Outcome.keepGoing _ => true
  | Outcome.error _ => false
  | Outcome.assertionFailure => false

/-- The decision table of spec section 4.4, written rule by rule with
first-matching-rule-wins ordering, to be compared with `check`:
rule 1 accepts when `in_jumble ∧ is_vocab ∧ ¬already_matched`;
rule 2 rejects as `AlreadyFound` when `already_matched`;
rule 3 rejects as `NotInVocabulary` when `¬is_vocab`;
rule 4 rejects as `NotInJumble` otherwise. -/
def submitSpec (words : List String) (s : Session) (w : String) :
    Session × Outcome :=
  let in_jumble := LetterBag.contains s.jumble w
  let is_vocab := Vocab.has words w
  let already := s.matchList.contains w
  if in_jumble && is_vocab && !already then
    let s2 : Session := { s with matchList := s.matchList ++ [w] }
    if s2.matchList.length ≥ s.target_count then
      (s2, Outcome.success)
    else
      (s2, Outcome.keepGoing w)
  else if already then
    (s, Outcome.error (alreadyFoundMsg w))
  else if !is_vocab then
    (s, Outcome.error (notInVocabMsg w))
  else
    (s, Outcome.error (notInJumbleMsg w s.jumble))

/-- Normalization in the sense of the spec (section 4.4 step 1):
trim surrounding whitespace and lowercase. -/
def normalizeWord (w : String) : String :=
  String.mk
    (((w.toList.dropWhile Char.isWhitespace).reverse.dropWhile
        Char.isWhitespace).reverse.map Char.toLower)

/-- Helper: the accepting branch of `check` (first branch of the source
`if`), reached when the word is in the vocabulary, fits the jumble and
was not already found. -/
lemma check_accept (words : List String) (s : Session) (w : String)
    (h1 : Vocab.has words w = true)
    (h2 : LetterBag.contains s.jumble w = true)
    (h3 : w ∉ s.matchList) :
    check words s w =
      ({ s with matchList := s.matchList ++ [w] },
        if s.target_count ≤ s.matchList.length + 1 then Outcome.success
        else Outcome.keepGoing w) := by
  unfold check
  simp [h1, h2, h3]
  split <;> simp

/-- Helper: the already-found branch of `check`. -/
lemma check_already (words : List String) (s : Session) (w : String)
    (h3 : w ∈ s.matchList) :
    check words s w = (s, Outcome.error (alreadyFoundMsg w)) := by
  unfold check
  simp [h3]

/-- Helper: the not-in-vocabulary branch of `check`. -/
lemma check_not_vocab (words : List String) (s : Session) (w : String)
    (h1 : Vocab.has words w = false)
    (h3 : w ∉ s.matchList) :
    check words s w = (s, Outcome.error (notInVocabMsg w)) := by
  unfold check
  simp [h1, h3]

/-- Helper: the not-in-jumble branch of `check`. -/
lemma check_not_jumble (words : List String) (s : Session) (w : String)
    (h1 : Vocab.has words w = true)
    (h2 : LetterBag.contains s.jumble w = false)
    (h3 : w ∉ s.matchList) :
    check words s w = (s, Outcome.error (notInJumbleMsg w s.jumble)) := by
  unfold check
  simp [h1, h2, h3]

/-- C1: for every submitted word, the `check` handler decides the
outcome exactly as the spec's decision table with first-matching-rule-wins
ordering (`submitSpec`): accept and append when the word fits the jumble,
is in the vocabulary and is not already matched (returning success when
the match count reaches the target, keep-going otherwise); otherwise
reject as already-found, then not-in-vocabulary, then not-in-jumble. -/
theorem check_follows_decision_table (words : List String) (s : Session)
    (w : String) : check words s w = submitSpec words s w := by
  by_cases h3 : w ∈ s.matchList
  · rw [check_already words s w h3]
    simp [submitSpec, h3]
  · cases h1 : Vocab.has words w
    · rw [check_not_vocab words s w h1 h3]
      simp [submitSpec, h1, h3]
    · cases h2 : LetterBag.contains s.jumble w
      · rw [check_not_jumble words s w h1 h2 h3]
        simp [submitSpec, h1, h2, h3]
      · rw [check_accept words s w h1 h2 h3]
        simp [submitSpec, h1, h2, h3]
        split <;> rfl

/-- C2: every outcome of the `check` handler is a returned value of the
`Outcome` data type — never the escaping assertion — and the three
rejection cases carry exactly the messages
"You already found {word}", "{word} isn\x27t in the list of words" and
"\x22{word}\x22 can\x27t be made from the letters {jumble}", each tied
to its own rejection condition. -/
theorem check_outcome_is_data (words : List String) (s : Session)
    (w : String) :
    (check words s w).2 = Outcome.success ∨
    (check words s w).2 = Outcome.keepGoing w ∨
    (w ∈ s.matchList ∧
      (check words s w).2 = Outcome.error (alreadyFoundMsg w)) ∨
    (Vocab.has words w = false ∧
      (check words s w).2 = Outcome.error (notInVocabMsg w)) ∨
    (LetterBag.contains s.jumble w = false ∧
      (check words s w).2 = Outcome.error (notInJumbleMsg w s.jumble)) := by
  by_cases h3 : w ∈ s.matchList
  · rw [check_already words s w h3]
    simp [h3]
  · cases h1 : Vocab.has words w
    · rw [check_not_vocab words s w h1 h3]
      simp
    · cases h2 : LetterBag.contains s.jumble w
      · rw [check_not_jumble words s w h1 h2 h3]
        simp
      · rw [check_accept words s w h1 h2 h3]
        split <;> simp

/-- C3: for every combination of the in-jumble, in-vocabulary and
already-matched conditions one of the four decision-table branches of
`check` applies, so the final `assert False` branch is unreachable. -/
theorem check_never_asserts (words : List String) (s : Session)
    (w : String) : (check words s w).2 ≠ Outcome.assertionFailure := by
  by_cases h3 : w ∈ s.matchList
  · rw [check_already words s w h3]
    simp
  · cases h1 : Vocab.has words w
    · rw [check_not_vocab words s w h1 h3]
      simp
    · cases h2 : LetterBag.contains s.jumble w
      · rw [check_not_jumble words s w h1 h2 h3]
        simp
      · rw [check_accept words s w h1 h2 h3]
        split <;> simp

/-- C4 counterexample: `check` performs no normalization of the
submitted word, so the outcome for "CAT" differs from the outcome for
its trimmed, lowercased form "cat": with vocabulary ["cat"] and jumble
"tac", "CAT" is rejected as not-in-vocabulary while "cat" is accepted. -/
theorem check_not_normalizing_cex :
    (check ["cat"] ⟨"tac", 1, []⟩ "CAT").2 ≠
      (check ["cat"] ⟨"tac", 1, []⟩ (normalizeWord "CAT")).2 ∧
    normalizeWord "CAT" = "cat" := by
  constructor
  · decide
  · decide

/-- C4 (amended): `check` performs no normalization; it computes the
in-jumble, in-vocabulary and already-matched checks on the word exactly
as submitted, so the outcome agrees with that of the trimmed, lowercased
form only when the submitted word is already in that form. -/
theorem check_fixed_on_normalized (words : List String) (s : Session)
    (w : String) (h : normalizeWord w = w) :
    check words s w = check words s (normalizeWord w) := by
  rw [h]

theorem check_fixed_on_normalized_witness :
    normalizeWord "cat" = "cat" ∧
    check ["cat"] ⟨"tac", 1, []⟩ "cat" =
      check ["cat"] ⟨"tac", 1, []⟩ (normalizeWord "cat") :=
  ⟨by decide, check_fixed_on_normalized ["cat"] ⟨"tac", 1, []⟩ "cat" (by decide)⟩

/-- C5 counterexample: a configured seed of 0 is a non-negative integer,
yet game start is not reproducible with it: `index` passes
`seed=None if not SEED or SEED < 0 else SEED`, and Python truthiness
maps `SEED = 0` to `None`, so the jumble is drawn from fresh randomness
(the tape) and two runs can disagree. -/
theorem seed_zero_not_reproducible :
    (0 : Int) ≥ 0 ∧
    (startNewGame ["cat"] 3 (some 0) [1] ⟨"", 1, []⟩).jumble ≠
      (startNewGame ["cat"] 3 (some 0) [] ⟨"", 1, []⟩).jumble := by
  constructor
  · decide
  · decide

/-- C5 (amended): for every configured seed that is a *positive*
integer, game start is reproducible — two runs with the same seed and
word list produce identical sessions whatever fresh randomness and prior
state they see; a zero seed behaves like an absent one (fresh
randomness), as do negative seeds. -/
theorem startNewGame_reproducible_positive_seed (sd : Int) (hs : 0 < sd)
    (words : List String) (c : Nat) (t1 t2 : List Nat)
    (p1 p2 : Session) :
    startNewGame words c (some sd) t1 p1 =
      startNewGame words c (some sd) t2 p2 := by
  have hes : effectiveSeed (some sd) = some sd := by
    simp only [effectiveSeed]
    rw [if_neg]
    simp
    omega
  unfold startNewGame
  rw [hes]
  rfl

theorem startNewGame_reproducible_positive_seed_witness :
    (0 : Int) < 1 ∧
    startNewGame ["cat"] 3 (some 1) [2] ⟨"", 1, []⟩ =
      startNewGame ["cat"] 3 (some 1) [5] ⟨"x", 2, ["cat"]⟩ :=
  ⟨by decide,
    startNewGame_reproducible_positive_seed 1 (by decide) ["cat"] 3 [2] [5]
      ⟨"", 1, []⟩ ⟨"x", 2, ["cat"]⟩⟩

/-- C6: `check` never changes the session's jumble or target count, and
the session either is left exactly as it was or — only on an accepting
outcome — has the submitted word appended to its match list. -/
theorem check_frame (words : List String) (s : Session) (w : String) :
    ((check words s w).1.jumble = s.jumble ∧
     (check words s w).1.target_count = s.target_count) ∧
    ((check words s w).1 = s ∨
     (((check words s w).2).isAccept = true ∧
      (check words s w).1.matchList = s.matchList ++ [w])) := by
  by_cases h3 : w ∈ s.matchList
  · rw [check_already words s w h3]
    simp
  · cases h1 : Vocab.has words w
    · rw [check_not_vocab words s w h1 h3]
      simp
    · cases h2 : LetterBag.contains s.jumble w
      · rw [check_not_jumble words s w h1 h2 h3]
        simp
      · rw [check_accept words s w h1 h2 h3]
        split <;> simp [Outcome.isAccept]

/-- C7: a session that has reached the complete state (match count at
least the target) stays complete after every further `check` call: the
match list only grows and the target count is unchanged. -/
theorem complete_stays_complete (words : List String) (s : Session)
    (w : String) (h : s.target_count ≤ s.matchList.length) :
    (check words s w).1.target_count ≤
      (check words s w).1.matchList.length := by
  by_cases h3 : w ∈ s.matchList
  · rw [check_already words s w h3]
    exact h
  · cases h1 : Vocab.has words w
    · rw [check_not_vocab words s w h1 h3]
      exact h
    · cases h2 : LetterBag.contains s.jumble w
      · rw [check_not_jumble words s w h1 h2 h3]
        exact h
      · rw [check_accept words s w h1 h2 h3]
        split <;> simp <;> omega

theorem complete_stays_complete_witness :
    (Session.mk "tac" 1 ["act"]).target_count ≤
      (Session.mk "tac" 1 ["act"]).matchList.length ∧
    (check ["act"] (Session.mk "tac" 1 ["act"]) "dog").1.target_count ≤
      (check ["act"] (Session.mk "tac" 1 ["act"]) "dog").1.matchList.length :=
  ⟨by decide,
    complete_stays_complete ["act"] (Session.mk "tac" 1 ["act"]) "dog"
      (by decide)⟩

/-- C8: at every new game start the session's target count is
`min(len(words), SUCCESS_AT_COUNT)` — capped at the vocabulary size —
and, given a non-empty vocabulary and a positive configured threshold
(the startup preconditions of the spec), it is positive. -/
theorem startNewGame_target_count (words : List String) (c : Nat)
    (seed : Option Int) (tape : List Nat) (prior : Session)
    (hw : words ≠ []) (hc : 0 < c) :
    (startNewGame words c seed tape prior).target_count =
      min words.length c ∧
    0 < (startNewGame words c seed tape prior).target_count := by
  refine ⟨rfl, ?_⟩
  have hlen : 0 < words.length := List.length_pos.mpr hw
  simp only [startNewGame]
  omega

theorem startNewGame_target_count_witness :
    (["cat"] : List String) ≠ [] ∧ 0 < 3 ∧
    ((startNewGame ["cat"] 3 none [] ⟨"", 1, []⟩).target_count =
        min (["cat"] : List String).length 3 ∧
      0 < (startNewGame ["cat"] 3 none [] ⟨"", 1, []⟩).target_count) :=
  ⟨by decide, by decide,
    startNewGame_target_count ["cat"] 3 none [] ⟨"", 1, []⟩
      (by decide) (by decide)⟩

/-- C9: starting a new game always yields a session whose match list is
empty, whatever the prior session state was, and running it again on its
own result still yields an empty match list (idempotence with respect to
the matches field). -/
theorem startNewGame_matchList_empty (words : List String) (c : Nat)
    (seed : Option Int) (tape : List Nat) (prior : Session) :
    (startNewGame words c seed tape prior).matchList = [] ∧
    (startNewGame words c seed tape
      (startNewGame words c seed tape prior)).matchList = [] :=
  ⟨rfl, rfl⟩

/-- C10: a session that is already complete still accepts a fresh valid
word: if the word is in the vocabulary, fits the jumble and is not yet
matched while the match count already reached the target, `check`
appends it (so the match count exceeds the target) and returns the
success outcome, not a rejection. -/
theorem complete_still_accepts (words : List String) (s : Session)
    (w : String)
    (h1 : Vocab.has words w = true)
    (h2 : LetterBag.contains s.jumble w = true)
    (h3 : w ∉ s.matchList)
    (h4 : s.target_count ≤ s.matchList.length) :
    (check words s w).2 = Outcome.success ∧
    (check words s w).1.matchList = s.matchList ++ [w] := by
  rw [check_accept words s w h1 h2 h3]
  rw [if_pos (by omega)]
  exact ⟨rfl, rfl⟩

theorem complete_still_accepts_witness :
    Vocab.has ["cat", "act"] "act" = true ∧
    LetterBag.contains "tac" "act" = true ∧
    "act" ∉ (Session.mk "tac" 1 ["cat"]).matchList ∧
    (Session.mk "tac" 1 ["cat"]).target_count ≤
      (Session.mk "tac" 1 ["cat"]).matchList.length ∧
    ((check ["cat", "act"] (Session.mk "tac" 1 ["cat"]) "act").2 =
        Outcome.success ∧
      (check ["cat", "act"] (Session.mk "tac" 1 ["cat"]) "act").1.matchList =
        ["cat"] ++ ["act"]) :=
  ⟨by decide, by decide, by decide, by decide,
    complete_still_accepts ["cat", "act"] (Session.mk "tac" 1 ["cat"]) "act"
      (by decide) (by decide) (by decide) (by decide)⟩

end VocabGame
